import Mathlib

/-!
Shallow embedding of the LLM orchestration and quota subsystem of the
orzionbackend repository.

Embedded source files:
- services/limit_service.py (RateLimitService)
- services/llm_service.py (CircuitBreaker, LLMService)
- services/provider_quota_service.py (ProviderQuotaService)
- services/response_cache_service.py (ResponseCacheService)
- routes/chat_routes.py (the chat endpoint slice that feeds the orchestrator)

Python dicts are embedded as association lists with a lookup (dget) and an
insert-or-replace (dset). Timestamps and dates are integers (seconds and day
indices); the code only ever compares them. External collaborators (the
Supabase store, the upstream HTTP adapters) are parameters: stored rows are
association lists threaded through each operation, a provider stream is a
value describing the chunks the adapter yields and how it ends, and the
possible storage failures are explicit boolean parameters matching the
try/except blocks of the source.
-/

/-- Lookup in an association list, mirroring a Python dict read. -/
def dget {κ α : Type} [DecidableEq κ] (d : List (κ × α)) (k : κ) : Option α :=
  match d with
  | [] => none
  | (k2, v) :: rest => if k2 = k then some v else dget rest k

/-- Insert-or-replace in an association list, mirroring a Python dict write. -/
def dset {κ α : Type} [DecidableEq κ] (d : List (κ × α)) (k : κ) (v : α) :
    List (κ × α) :=
  match d with
  | [] => [(k, v)]
  | (k2, v2) :: rest => if k2 = k then (k, v) :: rest else (k2, v2) :: dset rest k v

/-!
## Per-user rate limiter (services/limit_service.py)
-/

/-- RateLimitService.estimate_tokens (limit_service.py lines 17-27).
Python: if not text: return 0; return max(1, len(text) // 4). For a str
argument, "not text" is true exactly when the string is empty. -/
def estimate_tokens (text : String) : Nat :=
  if text = "" then 0 else max 1 (text.length / 4)

/-- One row of the static limits table: messages_daily, tokens_per_message,
tokens_daily. The value -1 means unlimited. -/
structure ModelLimits where
  messages_daily : Int
  tokens_per_message : Int
  tokens_daily : Int
deriving Repr, DecidableEq

/-- RateLimitService.DEFAULT_LIMITS (limit_service.py lines 30-82). -/
def DEFAULT_LIMITS : List (String × List (String × ModelLimits)) :=
  [("Free",
    [("Orzion Mini", ⟨200, 6000, 30000⟩),
     ("Orzion Turbo", ⟨100, 3000, 20000⟩),
     ("Orzion Pro", ⟨50, 2000, 10000⟩)]),
   ("Pro",
    [("Orzion Mini", ⟨500, 10000, 50000⟩),
     ("Orzion Turbo", ⟨300, 6000, 25000⟩),
     ("Orzion Pro", ⟨150, 5000, 20000⟩)]),
   ("Teams",
    [("Orzion Mini", ⟨-1, 50000, 256000⟩),
     ("Orzion Turbo", ⟨-1, 30000, 128000⟩),
     ("Orzion Pro", ⟨1000, 40000, 50000⟩)])]

/-- Bonus application inside get_user_limits (limit_service.py lines 112-119):
if a model_usage_quota row exists, bonus_messages_daily is added when the base
messages limit is not -1, and bonus_tokens_daily is always added. A bonus of
none stands both for no stored row and for a failed bonus query (the except
branch leaves the base limits unchanged). Bonus values are the nonnegative
promotion grants stored by the referral system. -/
def applyBonus (bonus : String → Option (Nat × Nat)) (m : String)
    (l : ModelLimits) : ModelLimits :=
  match bonus m with
  | none => l
  | some (bm, bt) =>
    { l with
      messages_daily :=
        if l.messages_daily ≠ -1 then l.messages_daily + bm else l.messages_daily,
      tokens_daily := l.tokens_daily + bt }

/-- RateLimitService.get_user_limits (limit_service.py lines 84-133): an
unknown plan name falls back to "Free"; every model of the plan gets its base
limits plus bonuses. The plan name resolution through the subscription
service is external, so the plan is a parameter. -/
def get_user_limits (plan_name : String) (bonus : String → Option (Nat × Nat)) :
    List (String × ModelLimits) :=
  let plan := if (dget DEFAULT_LIMITS plan_name).isSome then plan_name else "Free"
  match dget DEFAULT_LIMITS plan with
  | none => []
  | some models => models.map (fun p => (p.1, applyBonus bonus p.1 p.2))

/-- One model_usage_daily row: messages_used and tokens_used counters. -/
structure Usage where
  messages_used : Nat
  tokens_used : Nat
deriving Repr, DecidableEq

/-- Key of a model_usage_daily row: (user_id, model, date). -/
abbrev UsageKey := String × String × Nat

/-- Structured form of the three error payloads check_rate_limit can return:
the per-message string error and the two structured dict errors. -/
inductive LimitError where
  | perMessage (limit : Int) (tokens : Nat)
  | messagesLimit (limit : Int) (used : Nat)
  | tokensLimit (limit : Int) (used : Nat)
deriving Repr, DecidableEq

/-- The usage_info dict built by check_rate_limit. -/
structure UsageInfo where
  messages_current : Nat
  messages_limit : Int
  tokens_current : Nat
  tokens_limit : Int
  per_message_limit : Int
deriving Repr, DecidableEq

/-- Full outcome of one check_rate_limit call: the (allowed, error, usage_info)
triple of the source, the post-call state of the model_usage_daily store, and
an instrumentation flag recording whether the call hit one of the storage
failures named by the failure policy (store unavailable at line 198-200, the
usage query raising at line 204-217, or the increment RPC raising at line
256-288). -/
structure CheckOutcome where
  allowed : Bool
  error : Option LimitError
  usage_info : Option UsageInfo
  store : List (UsageKey × Usage)
  storage_error : Bool
deriving Repr, DecidableEq

/-- RateLimitService.check_rate_limit (limit_service.py lines 172-297).
Parameters store_available, query_fails and increment_fails select the
except branches actually taken by the environment. The increment RPC
increment_daily_usage is the atomic upsert-and-increment of the stored row;
on success it returns the post-increment counters, which the source uses to
rebuild usage_info. -/
def check_rate_limit (plan_name : String) (bonus : String → Option (Nat × Nat))
    (user_id model : String) (message_tokens : Nat) (today : Nat)
    (store_available query_fails increment_fails : Bool)
    (store : List (UsageKey × Usage)) : CheckOutcome :=
  let user_limits := get_user_limits plan_name bonus
  match dget user_limits model with
  | none => ⟨true, none, none, store, false⟩
  | some ml =>
    if ml.tokens_per_message ≠ -1 ∧ (message_tokens : Int) > ml.tokens_per_message then
      ⟨false, some (.perMessage ml.tokens_per_message message_tokens), none, store, false⟩
    else if store_available = false then
      ⟨true, none, none, store, true⟩
    else
      let key : UsageKey := (user_id, model, today)
      let current : Usage :=
        if query_fails then ⟨0, 0⟩
        else match dget store key with
          | some u => u
          | none => ⟨0, 0⟩
      let info0 : UsageInfo :=
        ⟨current.messages_used, ml.messages_daily, current.tokens_used,
         ml.tokens_daily, ml.tokens_per_message⟩
      if ml.messages_daily ≠ -1 ∧ (current.messages_used : Int) ≥ ml.messages_daily then
        ⟨false, some (.messagesLimit ml.messages_daily current.messages_used),
         some info0, store, query_fails⟩
      else if ml.tokens_daily ≠ -1 ∧
          ((current.tokens_used : Int) + message_tokens) > ml.tokens_daily then
        ⟨false, some (.tokensLimit ml.tokens_daily current.tokens_used),
         some info0, store, query_fails⟩
      else if increment_fails then
        ⟨true, none, some info0, store, true⟩
      else
        let actual : Usage :=
          match dget store key with
          | some u => u
          | none => ⟨0, 0⟩
        let updated : Usage :=
          ⟨actual.messages_used + 1, actual.tokens_used + message_tokens⟩
        let info1 : UsageInfo :=
          ⟨updated.messages_used, ml.messages_daily, updated.tokens_used,
           ml.tokens_daily, ml.tokens_per_message⟩
        ⟨true, none, some info1, dset store key updated, query_fails⟩

/-!
## Interleaving model of concurrent check_rate_limit calls

check_rate_limit has two storage suspension points on its success path: the
awaited usage select (lines 204-217) and the awaited increment RPC (lines
256-288). The limit comparison (line 234) runs synchronously on the snapshot
taken by the select, so a call is a two-step process over the shared row:
step one reads the row and decides, step two performs the atomic DB-side
increment. Only the message counter and the messages_daily limit matter for
the interleaving claim, so the shared row is its messages_used counter.
-/

/-- One in-flight check_rate_limit call: the snapshot its select returned
(none while the select is still pending), and whether it finished. A call
whose snapshot reached the limit finishes at the read step (rejected); a call
whose snapshot passed needs a second step for the increment RPC. -/
structure PendingCall where
  snapshot : Option Nat
  finished : Bool
deriving Repr, DecidableEq

/-- Shared state of the interleaving: the stored messages_used counter and
the per-call progress. -/
structure RaceState where
  messages_used : Nat
  calls : List PendingCall
deriving Repr, DecidableEq

/-- Initial state: stored counter 0, n calls in flight. -/
def initRace (n : Nat) : RaceState :=
  ⟨0, List.replicate n ⟨none, false⟩⟩

/-- Advance call i by one step: a pending select reads the current counter
and applies the line-234 comparison; a pending increment runs the atomic
increment RPC. -/
def raceStep (limit : Nat) (s : RaceState) (i : Nat) : RaceState :=
  match s.calls.get? i with
  | none => s
  | some c =>
    if c.finished then s
    else
      match c.snapshot with
      | none =>
        ⟨s.messages_used,
         s.calls.set i ⟨some s.messages_used, decide (s.messages_used ≥ limit)⟩⟩
      | some _ =>
        ⟨s.messages_used + 1, s.calls.set i ⟨c.snapshot, true⟩⟩

/-- Run a schedule: each entry names the call that performs its next step. -/
def runRace (limit n : Nat) (sched : List Nat) : RaceState :=
  sched.foldl (raceStep limit) (initRace n)

/-- Number of calls that returned allowed: their snapshot passed the
line-234 comparison and they completed their increment. -/
def raceSuccesses (limit : Nat) (s : RaceState) : Nat :=
  (s.calls.filter (fun c =>
    c.finished && match c.snapshot with
      | some v => decide (v < limit)
      | none => false)).length

/-!
## Circuit breaker (services/llm_service.py lines 24-56)
-/

/-- CircuitBreaker state. Timestamps are integer seconds; the source compares
datetime differences in seconds. -/
structure CircuitBreaker where
  failure_threshold : Nat
  recovery_timeout : Int
  failure_count : Nat
  last_failure_time : Option Int
  is_open : Bool
deriving Repr, DecidableEq

/-- Constructor defaults: threshold 5, recovery timeout 60, closed. -/
def CircuitBreaker.init : CircuitBreaker := ⟨5, 60, 0, none, false⟩

/-- CircuitBreaker.record_success (lines 34-36). -/
def CircuitBreaker.record_success (cb : CircuitBreaker) : CircuitBreaker :=
  { cb with failure_count := 0, is_open := false }

/-- CircuitBreaker.record_failure (lines 38-43). -/
def CircuitBreaker.record_failure (cb : CircuitBreaker) (now : Int) : CircuitBreaker :=
  let cb2 := { cb with failure_count := cb.failure_count + 1, last_failure_time := some now }
  if cb2.failure_count ≥ cb2.failure_threshold then { cb2 with is_open := true } else cb2

/-- CircuitBreaker.can_attempt (lines 45-56): returns the boolean answer and
the possibly reset breaker. -/
def CircuitBreaker.can_attempt (cb : CircuitBreaker) (now : Int) :
    Bool × CircuitBreaker :=
  if ¬ cb.is_open then (true, cb)
  else
    match cb.last_failure_time with
    | some t =>
      if now - t ≥ cb.recovery_timeout then
        (true, { cb with is_open := false, failure_count := 0 })
      else (false, cb)
    | none => (false, cb)

/-!
## Response cache (services/response_cache_service.py)
-/

/-- Message content: either plain text or a multimodal part list, each part a
(type, text) pair; image_url parts carry no text for key derivation. -/
inductive MsgContent where
  | txt (s : String)
  | parts (ps : List (String × String))
deriving Repr, DecidableEq

/-- One entry of a normalized message list: role and content. -/
structure ChatMessage where
  role : String
  content : MsgContent
deriving Repr, DecidableEq

/-- ResponseCacheService._normalize_prompt (lines 33-42): lowercase, split on
whitespace dropping empty pieces, rejoin with single spaces. -/
def normalize_prompt (p : String) : String :=
  String.intercalate " " ((p.toLower.split Char.isWhitespace).filter (fun s => s ≠ ""))

/-- Text extracted from one message content by _generate_cache_key
(lines 51-60): plain text as-is; for a part list, the text fields of the
parts whose type is "text", joined with spaces. -/
def contentText (c : MsgContent) : String :=
  match c with
  | .txt s => s
  | .parts ps =>
    String.intercalate " " ((ps.filter (fun p => p.1 == "text")).map (fun p => p.2))

/-- Cache keys. The source hashes the string
user_id : model_name : normalized with MD5; the embedding keeps the hashed
triple itself, which the source treats as injective. -/
abbrev CacheKey := String × String × String

/-- ResponseCacheService._generate_cache_key (lines 44-69): only user-role
messages contribute; their texts are joined and normalized. -/
def generate_cache_key (user_id model_name : String)
    (messages : List ChatMessage) : CacheKey :=
  let user_messages :=
    (messages.filter (fun m => m.role == "user")).map (fun m => contentText m.content)
  (user_id, model_name, normalize_prompt (String.intercalate " " user_messages))

/-- One cache entry (the stored user_id and model_name metadata fields are
omitted; the source never reads them on the get/put path). -/
structure CacheEntry where
  response : String
  created_at : Nat
  expires_at : Nat
deriving Repr, DecidableEq

/-- ResponseCacheService.DEFAULT_TTL_SECONDS (line 31). -/
def DEFAULT_TTL_SECONDS : Nat := 24 * 60 * 60

/-- ResponseCacheService._clean_expired_cache (lines 71-84): drop entries
with expires_at < now. -/
def clean_expired_cache (now : Nat) (cache : List (CacheKey × CacheEntry)) :
    List (CacheKey × CacheEntry) :=
  cache.filter (fun p => ! decide (p.2.expires_at < now))

/-- ResponseCacheService.get_cached_response (lines 86-117): clean, then a
hit needs expires_at > now; an entry that exists but is not strictly
unexpired is deleted (dead after cleaning, kept for fidelity). -/
def get_cached_response (user_id model_name : String)
    (messages : List ChatMessage) (now : Nat)
    (cache : List (CacheKey × CacheEntry)) :
    Option String × List (CacheKey × CacheEntry) :=
  let cache1 := clean_expired_cache now cache
  let key := generate_cache_key user_id model_name messages
  match dget cache1 key with
  | some entry =>
    if now < entry.expires_at then (some entry.response, cache1)
    else (none, cache1.filter (fun p => ! decide (p.1 = key)))
  | none => (none, cache1)

/-- ResponseCacheService.cache_response (lines 119-151) with the default
24h TTL used by the orchestrator. -/
def cache_response (user_id model_name : String) (messages : List ChatMessage)
    (response : String) (now : Nat) (cache : List (CacheKey × CacheEntry)) :
    List (CacheKey × CacheEntry) :=
  dset cache (generate_cache_key user_id model_name messages)
    ⟨response, now, now + DEFAULT_TTL_SECONDS⟩

/-!
## Provider quota tracker (services/provider_quota_service.py)

The embedding follows the in-process storage path (_memory_storage); the
Supabase path keys rows by (provider, model, date) and has the same per-day
observable behavior. Storage keys are (provider, model) pairs, the faithful
decomposition of the f-string keys of the source.
-/

/-- One provider_quotas row. -/
structure QuotaRecord where
  date : Nat
  requests_used : Nat
  is_exhausted : Bool
  last_error_time : Option Nat
deriving Repr, DecidableEq

/-- Key for quota rows and RPM counters: (provider, model_type). -/
abbrev PMKey := String × String

/-- The three process-local dicts of ProviderQuotaService: _memory_storage,
_last_rpm_check and _rpm_counter. -/
structure QuotaState where
  storage : List (PMKey × QuotaRecord)
  rpm_last : List (PMKey × Nat)
  rpm_count : List (PMKey × Nat)
deriving Repr, DecidableEq

/-- Daily and RPM limits for one (provider, model_type); -1 is unlimited. -/
structure ProviderLimits where
  daily : Int
  rpm : Int
deriving Repr, DecidableEq

/-- ProviderQuotaService.PROVIDER_LIMITS (lines 38-52). -/
def PROVIDER_LIMITS : List (String × List (String × ProviderLimits)) :=
  [("google",
    [("pro", ⟨200, 5⟩), ("turbo", ⟨1000, 15⟩),
     ("mini", ⟨1500, 15⟩), ("image", ⟨50, 5⟩)]),
   ("openrouter",
    [("pro", ⟨-1, -1⟩), ("turbo", ⟨-1, -1⟩),
     ("mini", ⟨-1, -1⟩), ("image", ⟨-1, -1⟩)])]

/-- ProviderQuotaService._get_quota_data (lines 59-115), memory path:
create the row if absent, reset it if its date is stale, return it. -/
def get_quota_data (provider model : String) (today : Nat) (qs : QuotaState) :
    QuotaRecord × QuotaState :=
  let key : PMKey := (provider, model)
  let fresh : QuotaRecord := ⟨today, 0, false, none⟩
  let storage1 :=
    match dget qs.storage key with
    | none => dset qs.storage key fresh
    | some _ => qs.storage
  let storage2 :=
    match dget storage1 key with
    | some r => if r.date ≠ today then dset storage1 key fresh else storage1
    | none => storage1
  (match dget storage2 key with
   | some r => r
   | none => fresh,
   { qs with storage := storage2 })

/-- ProviderQuotaService._update_quota_data (lines 117-138), memory path: the
partial-dict merge is a record update applied only when the key is present. -/
def update_quota_data (provider model : String) (f : QuotaRecord → QuotaRecord)
    (qs : QuotaState) : QuotaState :=
  let key : PMKey := (provider, model)
  match dget qs.storage key with
  | some r => { qs with storage := dset qs.storage key (f r) }
  | none => qs

/-- ProviderQuotaService.check_provider_available (lines 140-180). -/
def check_provider_available (provider model : String) (today now : Nat)
    (qs : QuotaState) : (Bool × Option String) × QuotaState :=
  let gq := get_quota_data provider model today qs
  let q := gq.1
  let qs1 := gq.2
  let limits : ProviderLimits :=
    match dget PROVIDER_LIMITS provider with
    | some ms =>
      match dget ms model with
      | some l => l
      | none => ⟨-1, -1⟩
    | none => ⟨-1, -1⟩
  if q.is_exhausted then
    ((false, some (provider ++ " marked as exhausted for " ++ model)), qs1)
  else if limits.daily > 0 ∧ (q.requests_used : Int) ≥ limits.daily then
    ((false, some (provider ++ " daily quota exceeded (" ++ toString q.requests_used
        ++ "/" ++ toString limits.daily ++ ")")),
     update_quota_data provider model (fun r => { r with is_exhausted := true }) qs1)
  else if limits.rpm > 0 then
    let key : PMKey := (provider, model)
    let needReset :=
      match dget qs1.rpm_last key with
      | none => true
      | some w => decide (now - w ≥ 60)
    let qs2 :=
      if needReset then
        { qs1 with rpm_last := dset qs1.rpm_last key now,
                   rpm_count := dset qs1.rpm_count key 0 }
      else qs1
    let cnt : Nat :=
      match dget qs2.rpm_count key with
      | some c => c
      | none => 0
    if (Int.ofNat cnt) ≥ limits.rpm then
      ((false, some (provider ++ " RPM limit exceeded (" ++ toString limits.rpm
          ++ "/min)")), qs2)
    else ((true, none), qs2)
  else ((true, none), qs1)

/-- ProviderQuotaService.increment_usage (lines 182-197): write the snapshot
plus one into the row, then bump the RPM counter. -/
def increment_usage (provider model : String) (today : Nat) (qs : QuotaState) :
    QuotaState :=
  let gq := get_quota_data provider model today qs
  let q := gq.1
  let qs1 := gq.2
  let qs2 :=
    update_quota_data provider model
      (fun r => { r with requests_used := q.requests_used + 1 }) qs1
  let key : PMKey := (provider, model)
  let c : Nat :=
    match dget qs2.rpm_count key with
    | some c => c
    | none => 0
  { qs2 with rpm_count := dset qs2.rpm_count key (c + 1) }

/-- ProviderQuotaService.mark_provider_exhausted (lines 199-217). -/
def mark_provider_exhausted (provider model : String) (now : Nat)
    (qs : QuotaState) : QuotaState :=
  update_quota_data provider model
    (fun r => { r with is_exhausted := true, last_error_time := some now }) qs

/-!
## Orchestrator (services/llm_service.py lines 59-341), normal mode
-/

/-- LLMService.MODEL_TYPE_MAPPING (lines 74-78). -/
def MODEL_TYPE_MAPPING : List (String × String) :=
  [("Orzion Pro", "pro"), ("Orzion Turbo", "turbo"), ("Orzion Mini", "mini")]

/-- Model type used for quota tracking (line 310): mapping with default
"pro". -/
def model_type_of (model_name : String) : String :=
  match dget MODEL_TYPE_MAPPING model_name with
  | some t => t
  | none => "pro"

/-- Behavior of one upstream adapter stream: the chunks it yields, and
whether it then finishes, raises an HTTP status error, or raises some other
exception. A stream is consumed by at most one invocation. -/
inductive StreamOutcome where
  | ok (chunks : List String)
  | httpError (chunks : List String) (status : Nat) (msg : String)
  | otherError (chunks : List String) (msg : String)
deriving Repr, DecidableEq

/-- Process-wide state the orchestrator touches, plus instrumentation
counters for how many times each adapter stream function was invoked. -/
structure OrchState where
  quota : QuotaState
  cache : List (CacheKey × CacheEntry)
  googleStreamCalls : Nat
  openrouterStreamCalls : Nat
deriving Repr, DecidableEq

/-- Result of one generator attempt: the chunks it yielded to its consumer
and whether it completed (false means it raised). -/
structure AttemptResult where
  yielded : List String
  completed : Bool
deriving Repr, DecidableEq

/-- LLMService._try_google_provider (lines 173-216): configuration check,
provider quota check, stream, then increment on success or mark-exhausted
and re-raise on HTTP 429; any other error re-raises. -/
def try_google_provider (googleConfigured : Bool) (gStream : StreamOutcome)
    (model_type : String) (today now : Nat) (st : OrchState) :
    AttemptResult × OrchState :=
  if ¬ googleConfigured then (⟨[], false⟩, st)
  else
    let res := check_provider_available "google" model_type today now st.quota
    let st1 := { st with quota := res.2 }
    if ¬ res.1.1 then (⟨[], false⟩, st1)
    else
      let st2 := { st1 with googleStreamCalls := st1.googleStreamCalls + 1 }
      match gStream with
      | .ok cs =>
        (⟨cs, true⟩,
         { st2 with quota := increment_usage "google" model_type today st2.quota })
      | .httpError cs status _msg =>
        if status = 429 then
          (⟨cs, false⟩,
           { st2 with quota := mark_provider_exhausted "google" model_type now st2.quota })
        else (⟨cs, false⟩, st2)
      | .otherError cs _msg => (⟨cs, false⟩, st2)

/-- LLMService._try_openrouter_provider (lines 218-249): a missing
configuration or a raised error is converted into in-band text chunks, so
this generator always completes. -/
def try_openrouter_provider (orConfigured : Bool) (oStream : StreamOutcome)
    (model_name model_type : String) (today : Nat) (st : OrchState) :
    List String × OrchState :=
  if ¬ orConfigured then
    (["Error: Neither Google AI Studio nor OpenRouter is configured for " ++ model_name],
     st)
  else
    let st2 := { st with openrouterStreamCalls := st.openrouterStreamCalls + 1 }
    match oStream with
    | .ok cs =>
      (cs, { st2 with quota := increment_usage "openrouter" model_type today st2.quota })
    | .httpError cs _status msg => (cs ++ ["\n\n[Error: " ++ msg ++ "]"], st2)
    | .otherError cs msg => (cs ++ ["\n\n[Error: " ++ msg ++ "]"], st2)

/-- Everything the caller of the stream received, plus the final state. -/
structure StreamRun where
  caller_chunks : List String
  state : OrchState
deriving Repr, DecidableEq

/-- The provider attempt chain of get_chat_completion_stream (lines 303-340):
google chunks are appended to response_chunks and yielded as they arrive; on
a google exception response_chunks is cleared and openrouter runs, its chunks
likewise appended and yielded; finally, with a user_id and a nonempty buffer,
the joined buffer is cached under the original messages. The system prompt
prepended at lines 303-307 only feeds the adapters, which are behavior
parameters here; the cache write uses the original message list. -/
def run_provider_chain (model_name : String) (messages : List ChatMessage)
    (user_id : Option String) (gc : Bool) (gs : StreamOutcome)
    (oc : Bool) (ost : StreamOutcome) (today now : Nat) (st : OrchState) :
    StreamRun :=
  let mt := model_type_of model_name
  let g := try_google_provider gc gs mt today now st
  let step2 : List String × List String × OrchState :=
    if g.1.completed then (g.1.yielded, g.1.yielded, g.2)
    else
      let o := try_openrouter_provider oc ost model_name mt today g.2
      (g.1.yielded ++ o.1, o.1, o.2)
  let caller := step2.1
  let buffered := step2.2.1
  let st2 := step2.2.2
  let st3 :=
    match user_id with
    | some uid =>
      if buffered ≠ [] then
        { st2 with cache :=
            cache_response uid model_name messages (String.join buffered) now st2.cache }
      else st2
    | none => st2
  ⟨caller, st3⟩

/-- LLMService.get_chat_completion_stream (lines 251-340) outside the special
modes: cache check when a user_id is supplied (a hit streams the cached text
and returns without touching providers or quotas), else the provider chain. -/
def get_chat_completion_stream (model_name : String) (messages : List ChatMessage)
    (user_id : Option String) (gc : Bool) (gs : StreamOutcome)
    (oc : Bool) (ost : StreamOutcome) (today now : Nat) (st : OrchState) :
    StreamRun :=
  match user_id with
  | some uid =>
    let hit := get_cached_response uid model_name messages now st.cache
    let st1 := { st with cache := hit.2 }
    match hit.1 with
    | some text => ⟨[text], st1⟩
    | none => run_provider_chain model_name messages (some uid) gc gs oc ost today now st1
  | none => run_provider_chain model_name messages none gc gs oc ost today now st

/-!
## Chat route slice (routes/chat_routes.py, chat endpoint lines 29-147)
-/

/-- Route outcome: the 429 rejection raised on a rate-limit denial, or the
joined completion text. -/
inductive RouteResult where
  | limitExceeded429
  | success (response : String)
deriving Repr, DecidableEq

/-- The chat endpoint slice that drives the orchestrator (lines 36-121):
with an authenticated user the rate limiter runs first (its verdict is the
parameter limiter_allowed, the check itself being check_rate_limit above);
the message list is history plus the user prompt; then the completion is
requested. Line 116-121 passes only (model, messages, search_context,
special_mode) to LLMService.get_chat_completion, so its user_id parameter
takes its default value none. -/
def chat_route (auth_user : Option String) (prompt model_name : String)
    (history : List ChatMessage) (limiter_allowed : Bool)
    (gc : Bool) (gs : StreamOutcome) (oc : Bool) (ost : StreamOutcome)
    (today now : Nat) (st : OrchState) : RouteResult × OrchState :=
  let messages := history ++ [⟨"user", .txt prompt⟩]
  match auth_user with
  | some _uid =>
    if ¬ limiter_allowed then (.limitExceeded429, st)
    else
      let run := get_chat_completion_stream model_name messages none gc gs oc ost today now st
      (.success (String.join run.caller_chunks), run.state)
  | none =>
    let run := get_chat_completion_stream model_name messages none gc gs oc ost today now st
    (.success (String.join run.caller_chunks), run.state)

/-- Shape invariant of every row the limits table can produce: the daily
messages limit is -1 or at least 50, the per-message cap is not the -1
sentinel, and the per-message cap never exceeds the daily token limit. These
facts make the usage checks of check_rate_limit unable to reject a request
whose usage snapshot degraded to zero after a failed query. -/
abbrev LimitsSane (ml : ModelLimits) : Prop :=
  (ml.messages_daily = -1 ∨ 50 ≤ ml.messages_daily) ∧
  ml.tokens_per_message ≠ -1 ∧
  ml.tokens_per_message ≤ ml.tokens_daily

/-!
## Association list lemmas
-/

/-- Reading back the key just written returns the written value. -/
theorem dget_dset_self {κ α : Type} [DecidableEq κ] (d : List (κ × α)) (k : κ)
    (v : α) : dget (dset d k v) k = some v := by
  induction d with
  | nil => simp [dget, dset]
  | cons p rest ih =>
    obtain ⟨k2, v2⟩ := p
    by_cases h : k2 = k
    · simp [dget, dset, h]
    · simp [dget, dset, h, ih]

/-- Writing one key leaves every other key unchanged. -/
theorem dget_dset_ne {κ α : Type} [DecidableEq κ] (d : List (κ × α)) (k k2 : κ)
    (v : α) (h : k ≠ k2) : dget (dset d k v) k2 = dget d k2 := by
  induction d with
  | nil => simp [dget, dset, h]
  | cons p rest ih =>
    obtain ⟨k3, v3⟩ := p
    by_cases h3 : k3 = k
    · subst h3; simp [dget, dset, h]
    · simp [dget, dset, h3, ih]

/-!
## Claim theorems
-/

/-- Claim C10, counterexample: on the empty string the code returns 0, while
the claimed formula max(1, len(text) // 4) gives 1. -/
theorem c10_counterexample_empty_string :
    estimate_tokens "" ≠ max 1 (String.length "" / 4) := by decide

/-- Claim C10 as amended: for every nonempty text, estimate_tokens returns
max(1, len(text) // 4); on empty text it returns 0. Determinism holds by
construction, the embedding being a pure function of the text. -/
theorem c10_estimate_tokens_nonempty (s : String) (h : s ≠ "") :
    estimate_tokens s = max 1 (s.length / 4) := by
  simp [estimate_tokens, h]

/-- Witness for c10_estimate_tokens_nonempty at the 8-character string. -/
theorem c10_estimate_tokens_nonempty_witness :
    ("abcdefgh" : String) ≠ "" ∧
    estimate_tokens "abcdefgh" = max 1 (String.length "abcdefgh" / 4) :=
  ⟨by decide, c10_estimate_tokens_nonempty "abcdefgh" (by decide)⟩

/-- Claim C5: starting closed with threshold 5 and recovery timeout 60, five
record_failure calls make can_attempt return false before the recovery
timeout has elapsed since the last failure; once it has elapsed, can_attempt
returns true, resets failure_count to 0 and closes the breaker. -/
theorem c5_breaker_opens_and_recovers (t1 t2 t3 t4 t5 ta tb : Int)
    (hA : ta - t5 < 60) (hB : tb - t5 ≥ 60) :
    ((((((CircuitBreaker.init.record_failure t1).record_failure t2).record_failure
        t3).record_failure t4).record_failure t5).can_attempt ta).1 = false ∧
    ((((((CircuitBreaker.init.record_failure t1).record_failure t2).record_failure
        t3).record_failure t4).record_failure t5).can_attempt tb).1 = true ∧
    ((((((CircuitBreaker.init.record_failure t1).record_failure t2).record_failure
        t3).record_failure t4).record_failure t5).can_attempt tb).2.failure_count = 0 ∧
    ((((((CircuitBreaker.init.record_failure t1).record_failure t2).record_failure
        t3).record_failure t4).record_failure t5).can_attempt tb).2.is_open = false := by
  have hcb : ((((CircuitBreaker.init.record_failure t1).record_failure
      t2).record_failure t3).record_failure t4).record_failure t5 =
      ⟨5, 60, 5, some t5, true⟩ := by
    simp [CircuitBreaker.init, CircuitBreaker.record_failure]
  rw [hcb]
  refine ⟨?_, ?_, ?_, ?_⟩ <;>
    simp only [CircuitBreaker.can_attempt] <;>
    split_ifs <;> simp_all <;> omega

/-- Witness for c5_breaker_opens_and_recovers: failures at time 0, probe at
time 0 and at time 100. -/
theorem c5_breaker_opens_and_recovers_witness :
    ((0 : Int) - 0 < 60) ∧ ((100 : Int) - 0 ≥ 60) ∧
    (((((((CircuitBreaker.init.record_failure 0).record_failure 0).record_failure
        0).record_failure 0).record_failure 0).can_attempt 0).1 = false ∧
     ((((((CircuitBreaker.init.record_failure 0).record_failure 0).record_failure
        0).record_failure 0).record_failure 0).can_attempt 100).1 = true ∧
     ((((((CircuitBreaker.init.record_failure 0).record_failure 0).record_failure
        0).record_failure 0).record_failure 0).can_attempt 100).2.failure_count = 0 ∧
     ((((((CircuitBreaker.init.record_failure 0).record_failure 0).record_failure
        0).record_failure 0).record_failure 0).can_attempt 100).2.is_open = false) :=
  ⟨by decide, by decide,
   c5_breaker_opens_and_recovers 0 0 0 0 0 0 100 (by decide) (by decide)⟩

set_option maxRecDepth 100000 in
/-- Claim C1 (code_bug evaluation): 50 concurrent check_rate_limit calls for
one (user, model) with daily message limit 10. The fully serial interleaving
gives exactly 10 successes, but the interleaving in which every call finishes
its usage select before any call runs its increment RPC gives 50 successes:
the limit comparison uses a snapshot read before the atomic increment, so
read-check-increment is not one indivisible unit. -/
theorem c1_stale_read_overruns_limit :
    raceSuccesses 10 (runRace 10 50 (List.range 50 ++ List.range 50)) = 50 ∧
    raceSuccesses 10 (runRace 10 50 ((List.range 50).flatMap (fun i => [i, i]))) = 10 := by
  decide

/-- Claim C2 (code_bug evaluation): two identical authenticated requests
through the chat endpoint, starting from an empty cache, invoke the google
adapter stream twice and leave the cache empty. The endpoint passes only
(model, messages, search_context, special_mode) to the completion call, so
user_id defaults to none inside the orchestrator and the cache is neither
consulted nor written; the second call is not a cache hit. -/
theorem c2_route_bypasses_cache :
    (chat_route (some "user-1") "Hello there" "Orzion Pro" [] true
        true (.ok ["Hi!"]) true (.ok ["Hi!"]) 0 5
        (chat_route (some "user-1") "Hello there" "Orzion Pro" [] true
          true (.ok ["Hi!"]) true (.ok ["Hi!"]) 0 0
          ⟨⟨[], [], []⟩, [], 0, 0⟩).2).2.googleStreamCalls = 2 ∧
    (chat_route (some "user-1") "Hello there" "Orzion Pro" [] true
        true (.ok ["Hi!"]) true (.ok ["Hi!"]) 0 5
        (chat_route (some "user-1") "Hello there" "Orzion Pro" [] true
          true (.ok ["Hi!"]) true (.ok ["Hi!"]) 0 0
          ⟨⟨[], [], []⟩, [], 0, 0⟩).2).2.cache = [] := by
  decide

/-- Claim C3, counterexample: primary yields one chunk then fails, fallback
succeeds; the caller receives the partial primary chunk followed by the full
fallback text, so the text seen by the caller does contain partial primary
output — only the buffer used for caching is discarded, chunks already
yielded cannot be unsent. -/
theorem c3_counterexample_caller_sees_partial_primary :
    (get_chat_completion_stream "Orzion Pro" [⟨"user", .txt "hi"⟩] (some "u")
        true (.otherError ["partial-primary "] "boom") true (.ok ["fallback answer"])
        0 0 ⟨⟨[], [], []⟩, [], 0, 0⟩).caller_chunks =
      ["partial-primary ", "fallback answer"] ∧
    (get_chat_completion_stream "Orzion Pro" [⟨"user", .txt "hi"⟩] (some "u")
        true (.otherError ["partial-primary "] "boom") true (.ok ["fallback answer"])
        0 0 ⟨⟨[], [], []⟩, [], 0, 0⟩).caller_chunks ≠ ["fallback answer"] := by
  decide

/-- Claim C4 (code_bug evaluation): the fallback stream fails after one
partial chunk; the exception is converted to an in-band error chunk, leaving
the buffer nonempty, and the partial response plus error marker is written to
the cache under the request key with the full 24h TTL. -/
theorem c4_partial_fallback_response_is_cached :
    (get_chat_completion_stream "Orzion Pro" [⟨"user", .txt "question"⟩]
        (some "u") false (.ok []) true
        (.otherError ["partial answer"] "connection lost")
        0 0 ⟨⟨[], [], []⟩, [], 0, 0⟩).state.cache =
      [(generate_cache_key "u" "Orzion Pro" [⟨"user", .txt "question"⟩],
        ⟨"partial answer\n\n[Error: connection lost]", 0, 86400⟩)] := by
  rfl

/-- Any model name other than the three table models has no limits entry,
whatever the plan and bonuses: each plan of DEFAULT_LIMITS (and the "Free"
fallback for unknown plans) carries exactly the keys Orzion Mini, Orzion
Turbo and Orzion Pro. -/
theorem dget_user_limits_unknown (plan : String)
    (bonus : String → Option (Nat × Nat)) (model : String)
    (h1 : model ≠ "Orzion Mini") (h2 : model ≠ "Orzion Turbo")
    (h3 : model ≠ "Orzion Pro") :
    dget (get_user_limits plan bonus) model = none := by
  have e1 := Ne.symm h1
  have e2 := Ne.symm h2
  have e3 := Ne.symm h3
  by_cases hp1 : plan = "Free"
  · subst hp1
    simp [get_user_limits, DEFAULT_LIMITS, dget, e1, e2, e3]
  · by_cases hp2 : plan = "Pro"
    · subst hp2
      simp [get_user_limits, DEFAULT_LIMITS, dget, e1, e2, e3]
    · by_cases hp3 : plan = "Teams"
      · subst hp3
        simp [get_user_limits, DEFAULT_LIMITS, dget, e1, e2, e3]
      · simp [get_user_limits, DEFAULT_LIMITS, dget, Ne.symm hp1, Ne.symm hp2,
          Ne.symm hp3, e1, e2, e3]

/-- Claim C7: a check_rate_limit call with a model name outside the plan
table returns allowed with no error and no usage_info, leaves the usage store
untouched at every prior usage level, and performs no storage access. -/
theorem c7_unknown_model_bypasses_limiter (plan : String)
    (bonus : String → Option (Nat × Nat)) (user_id model : String)
    (message_tokens today : Nat) (sa qf incf : Bool)
    (store : List (UsageKey × Usage))
    (h1 : model ≠ "Orzion Mini") (h2 : model ≠ "Orzion Turbo")
    (h3 : model ≠ "Orzion Pro") :
    check_rate_limit plan bonus user_id model message_tokens today sa qf incf store =
      ⟨true, none, none, store, false⟩ := by
  simp [check_rate_limit, dget_user_limits_unknown plan bonus model h1 h2 h3]

/-- Witness for c7_unknown_model_bypasses_limiter: the client-supplied model
name gpt-4, with prior usage already recorded under that name. -/
theorem c7_unknown_model_bypasses_limiter_witness :
    (("gpt-4" : String) ≠ "Orzion Mini" ∧ ("gpt-4" : String) ≠ "Orzion Turbo" ∧
      ("gpt-4" : String) ≠ "Orzion Pro") ∧
    check_rate_limit "Free" (fun _ => none) "u" "gpt-4" 3 0 true false false
        [(("u", "gpt-4", 0), ⟨7, 7⟩)] =
      ⟨true, none, none, [(("u", "gpt-4", 0), ⟨7, 7⟩)], false⟩ :=
  ⟨⟨by decide, by decide, by decide⟩,
   c7_unknown_model_bypasses_limiter "Free" (fun _ => none) "u" "gpt-4" 3 0
     true false false [(("u", "gpt-4", 0), ⟨7, 7⟩)]
     (by decide) (by decide) (by decide)⟩

/-- Claim C9: a message whose estimated token count exceeds the per-message
cap is rejected with the local string error before any storage access: the
usage store is returned unchanged and no storage operation runs. -/
theorem c9_per_message_cap_is_stateless (plan : String)
    (bonus : String → Option (Nat × Nat)) (user_id model : String)
    (message_tokens today : Nat) (sa qf incf : Bool)
    (store : List (UsageKey × Usage)) (ml : ModelLimits)
    (hml : dget (get_user_limits plan bonus) model = some ml)
    (htpm : ml.tokens_per_message ≠ -1)
    (hgt : (message_tokens : Int) > ml.tokens_per_message) :
    check_rate_limit plan bonus user_id model message_tokens today sa qf incf store =
      ⟨false, some (.perMessage ml.tokens_per_message message_tokens), none,
       store, false⟩ := by
  simp [check_rate_limit, hml, htpm, hgt]

/-- Witness for c9_per_message_cap_is_stateless: Free plan, Orzion Pro
(per-message cap 2000), a 5000-token message, nonempty prior usage. -/
theorem c9_per_message_cap_is_stateless_witness :
    (dget (get_user_limits "Free" (fun _ => none)) "Orzion Pro" =
        some ⟨50, 2000, 10000⟩ ∧
      (⟨50, 2000, 10000⟩ : ModelLimits).tokens_per_message ≠ -1 ∧
      ((5000 : Nat) : Int) > (⟨50, 2000, 10000⟩ : ModelLimits).tokens_per_message) ∧
    check_rate_limit "Free" (fun _ => none) "u" "Orzion Pro" 5000 0 true false false
        [(("u", "Orzion Pro", 0), ⟨3, 40⟩)] =
      ⟨false, some (.perMessage 2000 5000), none,
       [(("u", "Orzion Pro", 0), ⟨3, 40⟩)], false⟩ :=
  ⟨⟨by decide, by decide, by decide⟩,
   c9_per_message_cap_is_stateless "Free" (fun _ => none) "u" "Orzion Pro" 5000 0
     true false false [(("u", "Orzion Pro", 0), ⟨3, 40⟩)] ⟨50, 2000, 10000⟩
     (by decide) (by decide) (by decide)⟩

/-- Adding nonnegative bonuses preserves the limits-shape invariant. -/
theorem applyBonus_sane (bonus : String → Option (Nat × Nat)) (m : String)
    (l : ModelLimits) (h : LimitsSane l) : LimitsSane (applyBonus bonus m l) := by
  obtain ⟨hm, ht1, ht2⟩ := h
  unfold applyBonus
  cases hb : bonus m with
  | none => exact ⟨hm, ht1, ht2⟩
  | some p =>
    obtain ⟨bm, bt⟩ := p
    refine ⟨?_, ht1, ?_⟩
    · by_cases hmd : l.messages_daily = -1
      · simp [hmd]
      · simp only [hmd, if_pos, ne_eq, not_false_iff]
        rcases hm with hm | hm
        · exact absurd hm hmd
        · right
          have : (0 : Int) ≤ (bm : Int) := Int.natCast_nonneg bm
          simp [hmd]
          omega
    · have : (0 : Int) ≤ (bt : Int) := Int.natCast_nonneg bt
      simp only []
      omega

/-- Every row of the static limits table satisfies the shape invariant. -/
theorem default_limits_sane :
    ∀ pm ∈ DEFAULT_LIMITS, ∀ mlp ∈ pm.2, LimitsSane mlp.2 := by decide

/-- Every effective limits row produced by get_user_limits satisfies the
shape invariant, whatever the plan, bonuses and model. -/
theorem dget_user_limits_sane (plan : String)
    (bonus : String → Option (Nat × Nat)) (model : String) (ml : ModelLimits)
    (h : dget (get_user_limits plan bonus) model = some ml) : LimitsSane ml := by
  have step : ∀ (m : String) (base : ModelLimits), LimitsSane base →
      applyBonus bonus m base = ml → LimitsSane ml := by
    intro m base hb he
    exact he ▸ applyBonus_sane bonus m base hb
  have step2 : ∀ (m : String) (base : ModelLimits), LimitsSane base →
      some (applyBonus bonus m base) = some ml → LimitsSane ml := by
    intro m base hb he
    exact step m base hb (Option.some.inj he)
  unfold get_user_limits at h
  by_cases hp1 : plan = "Free"
  · subst hp1
    simp [DEFAULT_LIMITS, dget] at h
    split_ifs at h with hm1 hm2 hm3 <;>
      first
        | (refine step2 _ _ ?_ h; decide)
        | (refine step _ _ ?_ h; decide)
        | simp at h
  · by_cases hp2 : plan = "Pro"
    · subst hp2
      simp [DEFAULT_LIMITS, dget] at h
      split_ifs at h with hm1 hm2 hm3 <;>
        first
          | (refine step2 _ _ ?_ h; decide)
          | (refine step _ _ ?_ h; decide)
          | simp at h
    · by_cases hp3 : plan = "Teams"
      · subst hp3
        simp [DEFAULT_LIMITS, dget] at h
        split_ifs at h with hm1 hm2 hm3 <;>
          first
            | (refine step2 _ _ ?_ h; decide)
            | (refine step _ _ ?_ h; decide)
            | simp at h
      · simp [DEFAULT_LIMITS, dget, Ne.symm hp1, Ne.symm hp2, Ne.symm hp3] at h
        split_ifs at h with hm1 hm2 hm3 <;>
          first
            | (refine step2 _ _ ?_ h; decide)
            | (refine step _ _ ?_ h; decide)
            | simp at h

/-- Claim C8: whenever a check_rate_limit run hits one of the storage
failures named by the failure policy — the persistent store unavailable, the
usage query raising, or the increment RPC raising — the call returns
allowed. The per-message cap check precedes every storage access, so a run
that rejects on it never observes a storage error. -/
theorem c8_storage_errors_fail_open (plan : String)
    (bonus : String → Option (Nat × Nat)) (user_id model : String)
    (message_tokens today : Nat) (sa qf incf : Bool)
    (store : List (UsageKey × Usage))
    (h : (check_rate_limit plan bonus user_id model message_tokens today sa qf
        incf store).storage_error = true) :
    (check_rate_limit plan bonus user_id model message_tokens today sa qf
      incf store).allowed = true := by
  cases hml : dget (get_user_limits plan bonus) model with
  | none => simp [check_rate_limit, hml]
  | some ml =>
    obtain ⟨hm, htpm, htd⟩ := dget_user_limits_sane plan bonus model ml hml
    simp only [check_rate_limit, hml] at h ⊢
    split_ifs at h ⊢ <;> simp_all <;> omega

/-- Witness for c8_storage_errors_fail_open: persistent store unavailable. -/
theorem c8_storage_errors_fail_open_witness :
    (check_rate_limit "Free" (fun _ => none) "u" "Orzion Pro" 10 0 false false
        false []).storage_error = true ∧
    (check_rate_limit "Free" (fun _ => none) "u" "Orzion Pro" 10 0 false false
        false []).allowed = true :=
  ⟨by decide,
   c8_storage_errors_fail_open "Free" (fun _ => none) "u" "Orzion Pro" 10 0
     false false false [] (by decide)⟩

/-- Claim C3 as amended: the discard applies to the buffered response used
for the cache write, not to chunks already streamed. When the primary stream
yields chunks and then raises and the fallback stream completes, the buffer
restarts from the fallback alone: starting from an empty cache, the entry
written for the request key holds exactly the joined fallback chunks and no
partial primary output; the caller, however, has already received the
partial primary chunks followed by the fallback text. -/
theorem c3_cache_discards_partial_primary
    (gChunks oChunks : List String) (emsg uid prompt : String) (today now : Nat)
    (hne : oChunks ≠ []) :
    (get_chat_completion_stream "Orzion Pro" [⟨"user", .txt prompt⟩] (some uid)
        true (.otherError gChunks emsg) true (.ok oChunks) today now
        ⟨⟨[], [], []⟩, [], 0, 0⟩).state.cache =
      [(generate_cache_key uid "Orzion Pro" [⟨"user", .txt prompt⟩],
        ⟨String.join oChunks, now, now + DEFAULT_TTL_SECONDS⟩)] ∧
    (get_chat_completion_stream "Orzion Pro" [⟨"user", .txt prompt⟩] (some uid)
        true (.otherError gChunks emsg) true (.ok oChunks) today now
        ⟨⟨[], [], []⟩, [], 0, 0⟩).caller_chunks = gChunks ++ oChunks := by
  constructor <;>
    simp [get_chat_completion_stream, get_cached_response, clean_expired_cache,
      run_provider_chain, model_type_of, MODEL_TYPE_MAPPING, dget,
      try_google_provider, check_provider_available, get_quota_data,
      update_quota_data, increment_usage, try_openrouter_provider,
      cache_response, dset, PROVIDER_LIMITS, hne]

/-- Witness for c3_cache_discards_partial_primary. -/
theorem c3_cache_discards_partial_primary_witness :
    (["fallback answer"] : List String) ≠ [] ∧
    ((get_chat_completion_stream "Orzion Pro" [⟨"user", .txt "hi"⟩] (some "u")
        true (.otherError ["partial-primary "] "boom") true
        (.ok ["fallback answer"]) 0 0
        ⟨⟨[], [], []⟩, [], 0, 0⟩).state.cache =
      [(generate_cache_key "u" "Orzion Pro" [⟨"user", .txt "hi"⟩],
        ⟨String.join ["fallback answer"], 0, 0 + DEFAULT_TTL_SECONDS⟩)] ∧
    (get_chat_completion_stream "Orzion Pro" [⟨"user", .txt "hi"⟩] (some "u")
        true (.otherError ["partial-primary "] "boom") true
        (.ok ["fallback answer"]) 0 0
        ⟨⟨[], [], []⟩, [], 0, 0⟩).caller_chunks =
      ["partial-primary "] ++ ["fallback answer"]) :=
  ⟨by decide,
   c3_cache_discards_partial_primary ["partial-primary "] ["fallback answer"]
     "boom" "u" "hi" 0 0 (by decide)⟩

/-- After _get_quota_data, the row for its key is stored and carries the
requested date, and it is the returned row. -/
theorem get_quota_data_post (p m : String) (today : Nat) (qs : QuotaState) :
    dget (get_quota_data p m today qs).2.storage (p, m) =
      some (get_quota_data p m today qs).1 ∧
    (get_quota_data p m today qs).1.date = today := by
  unfold get_quota_data
  cases h0 : dget qs.storage (p, m) with
  | none => simp [h0, dget_dset_self]
  | some r =>
    by_cases hd : r.date = today
    · simp [h0, hd]
    · simp [h0, hd, dget_dset_self]

/-- _get_quota_data leaves every other key of the storage unchanged. -/
theorem get_quota_data_other (p m p2 m2 : String) (today : Nat) (qs : QuotaState)
    (h : (p, m) ≠ (p2, m2)) :
    dget (get_quota_data p m today qs).2.storage (p2, m2) =
      dget qs.storage (p2, m2) := by
  unfold get_quota_data
  cases h0 : dget qs.storage (p, m) with
  | none => simp [h0, dget_dset_self, dget_dset_ne _ _ _ _ h]
  | some r =>
    by_cases hd : r.date = today
    · simp [h0, hd]
    · simp [h0, hd, dget_dset_self, dget_dset_ne _ _ _ _ h]

/-- _update_quota_data leaves every other key of the storage unchanged. -/
theorem update_quota_data_other (p m p2 m2 : String) (f : QuotaRecord → QuotaRecord)
    (qs : QuotaState) (h : (p, m) ≠ (p2, m2)) :
    dget (update_quota_data p m f qs).storage (p2, m2) =
      dget qs.storage (p2, m2) := by
  unfold update_quota_data
  cases h0 : dget qs.storage (p, m) with
  | none => simp [h0]
  | some r => simp [h0, dget_dset_ne _ _ _ _ h]

/-- increment_usage leaves every other key of the storage unchanged. -/
theorem increment_usage_other (p m p2 m2 : String) (today : Nat) (qs : QuotaState)
    (h : (p, m) ≠ (p2, m2)) :
    dget (increment_usage p m today qs).storage (p2, m2) =
      dget qs.storage (p2, m2) := by
  unfold increment_usage
  simp only []
  rw [update_quota_data_other _ _ _ _ _ _ h, get_quota_data_other _ _ _ _ _ _ h]

/-- check_provider_available on an exhausted same-day row answers
unavailable without changing any state. -/
theorem check_provider_available_exhausted (p m : String) (today now : Nat)
    (qs : QuotaState) (r : QuotaRecord)
    (hr : dget qs.storage (p, m) = some r) (hd : r.date = today)
    (hex : r.is_exhausted = true) :
    check_provider_available p m today now qs =
      ((false, some (p ++ " marked as exhausted for " ++ m)), qs) := by
  unfold check_provider_available get_quota_data
  simp [hr, hd, hex]

/-- When check_provider_available answers available, the storage is that of
_get_quota_data, so the row for the key is stored with the requested date. -/
theorem check_provider_available_true_post (p m : String) (today now : Nat)
    (qs : QuotaState)
    (h : (check_provider_available p m today now qs).1.1 = true) :
    dget (check_provider_available p m today now qs).2.storage (p, m) =
      some (get_quota_data p m today qs).1 ∧
    (get_quota_data p m today qs).1.date = today := by
  obtain ⟨hq1, hq2⟩ := get_quota_data_post p m today qs
  refine ⟨?_, hq2⟩
  unfold check_provider_available at h ⊢
  dsimp only [] at h ⊢
  split_ifs at h ⊢ <;> simp_all

/-- mark_provider_exhausted on a stored row flips its exhausted flag and
stamps the error time. -/
theorem mark_provider_exhausted_post (p m : String) (now : Nat) (qs : QuotaState)
    (r : QuotaRecord) (hr : dget qs.storage (p, m) = some r) :
    dget (mark_provider_exhausted p m now qs).storage (p, m) =
      some { r with is_exhausted := true, last_error_time := some now } := by
  unfold mark_provider_exhausted update_quota_data
  simp [hr, dget_dset_self]

/-- _get_quota_data under a different date returns a fresh non-exhausted
row: the exhausted flag does not survive a date rollover. -/
theorem get_quota_data_new_day (p m : String) (day2 : Nat) (qs : QuotaState)
    (r : QuotaRecord) (hr : dget qs.storage (p, m) = some r)
    (hd : r.date ≠ day2) :
    (get_quota_data p m day2 qs).1 = ⟨day2, 0, false, none⟩ := by
  unfold get_quota_data
  simp [hr, hd, dget_dset_self]

/-- Specialization: the openrouter usage increment never touches the google
quota row. -/
theorem increment_usage_openrouter_google (mtype : String) (today : Nat)
    (qs : QuotaState) :
    dget (increment_usage "openrouter" mtype today qs).storage ("google", mtype) =
      dget qs.storage ("google", mtype) :=
  increment_usage_other "openrouter" mtype "google" mtype today qs (by simp)

/-- _try_openrouter_provider never touches the google quota row and never
invokes the google adapter. -/
theorem try_openrouter_provider_preserves (oc : Bool) (ost : StreamOutcome)
    (model_name mtype : String) (today : Nat) (st : OrchState) :
    dget (try_openrouter_provider oc ost model_name mtype today st).2.quota.storage
      ("google", mtype) = dget st.quota.storage ("google", mtype) ∧
    (try_openrouter_provider oc ost model_name mtype today st).2.googleStreamCalls =
      st.googleStreamCalls := by
  unfold try_openrouter_provider
  cases oc <;> cases ost <;>
    simp [increment_usage_openrouter_google]

/-- run_provider_chain while the google row for today is exhausted: the
google adapter is not invoked and the row is preserved. -/
theorem run_provider_chain_exhausted (model_name : String)
    (messages : List ChatMessage) (uid : Option String) (gc : Bool)
    (gs : StreamOutcome) (oc : Bool) (ost : StreamOutcome) (today now : Nat)
    (st : OrchState) (r : QuotaRecord)
    (hr : dget st.quota.storage ("google", model_type_of model_name) = some r)
    (hd : r.date = today) (hex : r.is_exhausted = true) :
    (run_provider_chain model_name messages uid gc gs oc ost today now
        st).state.googleStreamCalls = st.googleStreamCalls ∧
    dget (run_provider_chain model_name messages uid gc gs oc ost today now
        st).state.quota.storage ("google", model_type_of model_name) = some r := by
  have hck := check_provider_available_exhausted "google" (model_type_of model_name)
    today now st.quota r hr hd hex
  have hor := try_openrouter_provider_preserves oc ost model_name
    (model_type_of model_name) today st
  unfold run_provider_chain try_google_provider
  cases gc <;>
    · dsimp only []
      rw [hck]
      dsimp only []
      cases uid <;>
        · dsimp only []
          split_ifs <;> simp_all

/-- get_chat_completion_stream while the google row for today is exhausted:
whether or not a user_id is supplied, and whatever the cache holds, the
google adapter is not invoked and the exhausted row is preserved. -/
theorem stream_exhausted_skips_google (model_name : String)
    (messages : List ChatMessage) (uid : Option String) (gc : Bool)
    (gs : StreamOutcome) (oc : Bool) (ost : StreamOutcome) (today now : Nat)
    (st : OrchState) (r : QuotaRecord)
    (hr : dget st.quota.storage ("google", model_type_of model_name) = some r)
    (hd : r.date = today) (hex : r.is_exhausted = true) :
    (get_chat_completion_stream model_name messages uid gc gs oc ost today now
        st).state.googleStreamCalls = st.googleStreamCalls ∧
    dget (get_chat_completion_stream model_name messages uid gc gs oc ost today
        now st).state.quota.storage ("google", model_type_of model_name) =
      some r := by
  unfold get_chat_completion_stream
  cases uid with
  | none =>
    exact run_provider_chain_exhausted model_name messages none gc gs oc ost
      today now st r hr hd hex
  | some u =>
    dsimp only []
    cases hhit : (get_cached_response u model_name messages now st.cache).1 with
    | some text => simp [hr]
    | none =>
      exact run_provider_chain_exhausted model_name messages (some u) gc gs oc
        ost today now
        { st with cache := (get_cached_response u model_name messages now st.cache).2 }
        r hr hd hex

/-- The google attempt with quota available and an adapter raising HTTP 429:
the stream is consumed, then the quota row is marked exhausted and the
exception re-raised. -/
theorem try_google_provider_429 (mtype : String) (cs : List String)
    (emsg : String) (today now : Nat) (st : OrchState)
    (havail : (check_provider_available "google" mtype today now
        st.quota).1.1 = true) :
    try_google_provider true (.httpError cs 429 emsg) mtype today now st =
      (⟨cs, false⟩,
       { st with
         googleStreamCalls := st.googleStreamCalls + 1,
         quota := mark_provider_exhausted "google" mtype now
           (check_provider_available "google" mtype today now st.quota).2 }) := by
  unfold try_google_provider
  simp [havail]

/-- The 429 chain: google attempt marks the row exhausted, and the rest of
the chain (the openrouter fallback; no cache write since no user_id)
preserves that row. -/
theorem chain_429_marks_exhausted (model_name : String)
    (messages : List ChatMessage) (cs : List String) (emsg : String)
    (oc : Bool) (ost : StreamOutcome) (today now : Nat) (st : OrchState)
    (havail : (check_provider_available "google" (model_type_of model_name)
        today now st.quota).1.1 = true) :
    dget (run_provider_chain model_name messages none true
        (.httpError cs 429 emsg) oc ost today now st).state.quota.storage
        ("google", model_type_of model_name) =
      some { (get_quota_data "google" (model_type_of model_name) today
                st.quota).1 with
             is_exhausted := true, last_error_time := some now } ∧
    (get_quota_data "google" (model_type_of model_name) today st.quota).1.date =
      today := by
  obtain ⟨hpost, hdate⟩ := check_provider_available_true_post "google"
    (model_type_of model_name) today now st.quota havail
  have hg := try_google_provider_429 (model_type_of model_name) cs emsg today
    now st havail
  refine ⟨?_, hdate⟩
  unfold run_provider_chain
  simp only [hg]
  simp only [Bool.false_eq_true, if_false]
  rw [(try_openrouter_provider_preserves oc ost model_name
    (model_type_of model_name) today _).1]
  exact mark_provider_exhausted_post _ _ _ _ _ hpost

/-- Claim C6: if the google adapter raises HTTP 429 during an attempted
request (quota available, adapter invoked), mark_provider_exhausted takes
effect for (google, model-class): the stored row for today is exhausted with
the error time stamped; any subsequent request on the same day — whatever its
user, cache state, configuration and streams — does not invoke the google
adapter and preserves the exhausted row; check_provider_available answers
unavailable while the flag is set; and _get_quota_data under any other date
produces a fresh row with the flag cleared, so exhaustion ends exactly at the
calendar date change. -/
theorem c6_http429_exhausts_google_until_date_change
    (model_name : String) (messages messages2 : List ChatMessage)
    (uid2 : Option String) (cs : List String) (emsg : String)
    (oc gc2 oc2 : Bool) (ost gs2 ost2 : StreamOutcome)
    (today now now2 : Nat) (st0 : OrchState)
    (havail : (check_provider_available "google" (model_type_of model_name)
        today now st0.quota).1.1 = true) :
    ∃ r1 : QuotaRecord,
      dget (get_chat_completion_stream model_name messages none true
          (.httpError cs 429 emsg) oc ost today now st0).state.quota.storage
        ("google", model_type_of model_name) = some r1 ∧
      r1.is_exhausted = true ∧
      r1.date = today ∧
      (get_chat_completion_stream model_name messages2 uid2 gc2 gs2 oc2 ost2
          today now2
          (get_chat_completion_stream model_name messages none true
            (.httpError cs 429 emsg) oc ost today now
            st0).state).state.googleStreamCalls =
        (get_chat_completion_stream model_name messages none true
          (.httpError cs 429 emsg) oc ost today now
          st0).state.googleStreamCalls ∧
      dget (get_chat_completion_stream model_name messages2 uid2 gc2 gs2 oc2
          ost2 today now2
          (get_chat_completion_stream model_name messages none true
            (.httpError cs 429 emsg) oc ost today now
            st0).state).state.quota.storage
        ("google", model_type_of model_name) = some r1 ∧
      (check_provider_available "google" (model_type_of model_name) today now2
        (get_chat_completion_stream model_name messages none true
          (.httpError cs 429 emsg) oc ost today now
          st0).state.quota).1.1 = false ∧
      ∀ day2 : Nat, day2 ≠ today →
        (get_quota_data "google" (model_type_of model_name) day2
          (get_chat_completion_stream model_name messages none true
            (.httpError cs 429 emsg) oc ost today now
            st0).state.quota).1.is_exhausted = false := by
  have hstream : get_chat_completion_stream model_name messages none true
      (.httpError cs 429 emsg) oc ost today now st0 =
      run_provider_chain model_name messages none true (.httpError cs 429 emsg)
        oc ost today now st0 := rfl
  obtain ⟨hmark, hdate⟩ := chain_429_marks_exhausted model_name messages cs emsg
    oc ost today now st0 havail
  rw [hstream]
  refine ⟨{ (get_quota_data "google" (model_type_of model_name) today
      st0.quota).1 with is_exhausted := true, last_error_time := some now },
    hmark, rfl, hdate, ?_, ?_, ?_, ?_⟩
  · exact (stream_exhausted_skips_google model_name messages2 uid2 gc2 gs2 oc2
      ost2 today now2 _ _ hmark hdate rfl).1
  · exact (stream_exhausted_skips_google model_name messages2 uid2 gc2 gs2 oc2
      ost2 today now2 _ _ hmark hdate rfl).2
  · rw [check_provider_available_exhausted "google" (model_type_of model_name)
      today now2 _ _ hmark hdate rfl]
  · intro day2 hne
    have hrd : (get_quota_data "google" (model_type_of model_name) today
        st0.quota).1.date ≠ day2 := by
      rw [hdate]; exact Ne.symm hne
    rw [get_quota_data_new_day "google" (model_type_of model_name) day2 _ _
      hmark hrd]

/-- Witness for c6_http429_exhausts_google_until_date_change: Orzion Pro on
day 7, a 429 at time 100, a second request at time 160 the same day. -/
theorem c6_http429_exhausts_google_witness :
    (check_provider_available "google" (model_type_of "Orzion Pro") 7 100
      (⟨⟨[], [], []⟩, [], 0, 0⟩ : OrchState).quota).1.1 = true ∧
    (∃ r1 : QuotaRecord,
      dget (get_chat_completion_stream "Orzion Pro" [⟨"user", .txt "q"⟩] none
          true (.httpError ["x"] 429 "quota") true (.ok ["fb"]) 7 100
          ⟨⟨[], [], []⟩, [], 0, 0⟩).state.quota.storage
        ("google", model_type_of "Orzion Pro") = some r1 ∧
      r1.is_exhausted = true ∧
      r1.date = 7 ∧
      (get_chat_completion_stream "Orzion Pro" [⟨"user", .txt "q2"⟩] none true
          (.ok ["nope"]) true (.ok ["fb2"]) 7 160
          (get_chat_completion_stream "Orzion Pro" [⟨"user", .txt "q"⟩] none
            true (.httpError ["x"] 429 "quota") true (.ok ["fb"]) 7 100
            ⟨⟨[], [], []⟩, [], 0, 0⟩).state).state.googleStreamCalls =
        (get_chat_completion_stream "Orzion Pro" [⟨"user", .txt "q"⟩] none
          true (.httpError ["x"] 429 "quota") true (.ok ["fb"]) 7 100
          ⟨⟨[], [], []⟩, [], 0, 0⟩).state.googleStreamCalls ∧
      dget (get_chat_completion_stream "Orzion Pro" [⟨"user", .txt "q2"⟩] none
          true (.ok ["nope"]) true (.ok ["fb2"]) 7 160
          (get_chat_completion_stream "Orzion Pro" [⟨"user", .txt "q"⟩] none
            true (.httpError ["x"] 429 "quota") true (.ok ["fb"]) 7 100
            ⟨⟨[], [], []⟩, [], 0, 0⟩).state).state.quota.storage
        ("google", model_type_of "Orzion Pro") = some r1 ∧
      (check_provider_available "google" (model_type_of "Orzion Pro") 7 160
        (get_chat_completion_stream "Orzion Pro" [⟨"user", .txt "q"⟩] none
          true (.httpError ["x"] 429 "quota") true (.ok ["fb"]) 7 100
          ⟨⟨[], [], []⟩, [], 0, 0⟩).state.quota).1.1 = false ∧
      ∀ day2 : Nat, day2 ≠ 7 →
        (get_quota_data "google" (model_type_of "Orzion Pro") day2
          (get_chat_completion_stream "Orzion Pro" [⟨"user", .txt "q"⟩] none
            true (.httpError ["x"] 429 "quota") true (.ok ["fb"]) 7 100
            ⟨⟨[], [], []⟩, [], 0, 0⟩).state.quota).1.is_exhausted = false) :=
  ⟨by decide,
   c6_http429_exhausts_google_until_date_change "Orzion Pro"
     [⟨"user", .txt "q"⟩] [⟨"user", .txt "q2"⟩] none ["x"] "quota"
     true true true (.ok ["fb"]) (.ok ["nope"]) (.ok ["fb2"]) 7 100 160
     ⟨⟨[], [], []⟩, [], 0, 0⟩ (by decide)⟩
